import Mathlib

set_option maxRecDepth 100000

/-!
Shallow embedding of the host-side core of the frankly_fw_update repository
(Frankly bootloader firmware update tool) together with theorems checking its
natural-language specification.

Conventions of the embedding:
* Machine integers (u8, u16, u32) are modelled as Nat; wrap-around or
  truncation is written explicitly (`% 256`, `% 2^32`, ...) exactly where the
  Rust code performs it.  All arithmetic appearing in the verified claims
  stays far below 2^32, so unchecked u32 additions are modelled as plain Nat
  additions.
* A Rust `panic!` (including an arithmetic underflow in a debug build and an
  `unwrap` of `None`) is a distinguished abnormal outcome, modelled either as
  `Option.none` or as an explicit `panic`-style constructor of a result type.
* Fallible functions returning `Result<T, Error>` become `Except Error T`.
* The human-readable text carried inside error values is abbreviated: the Rust
  code builds long diagnostic strings with `format!`; only the error kind and
  a short fixed prefix are kept, since no observable behaviour of the library
  depends on the full text.
-/

namespace FranklyBoot

/-! CRC-32 (ISO-HDLC), the algorithm provided by the `crc` crate constant
`CRC_32_ISO_HDLC`: reflected, polynomial 0xEDB88320 (bit-reversed
0x04C11DB7), initial value 0xFFFFFFFF, final xor 0xFFFFFFFF.  Used by
`FlashPage::calculate_crc` and `AppFirmware::_calc_app_crc`. -/

/-- One bit step of the reflected CRC-32 computation. -/
def crc32_bit (crc : Nat) : Nat :=
  if crc % 2 = 1 then (crc / 2) ^^^ 0xEDB88320 else crc / 2

/-- Fold one input byte into the running CRC-32 state. -/
def crc32_byte (crc b : Nat) : Nat :=
  (List.range 8).foldl (fun c _ => crc32_bit c) (crc ^^^ (b % 256))

/-- CRC-32 (ISO-HDLC) checksum of a byte list, as `CRC32.checksum` from the
`crc` crate computes it. -/
def crc32 (data : List Nat) : Nat :=
  (data.foldl crc32_byte 0xFFFFFFFF) ^^^ 0xFFFFFFFF

/-! Message codec of `src/src/francor/franklyboot/com/msg.rs` (the codec used
by the current `Device` driver). -/

/-- Request codes of the bootloader protocol (`RequestType` in com/msg.rs). -/
inductive RequestType where
  | Ping
  | ResetDevice
  | StartApp
  | DevInfoBootloaderVersion
  | DevInfoBootloaderCRC
  | DevInfoVID
  | DevInfoPID
  | DevInfoPRD
  | DevInfoUID
  | FlashInfoStartAddr
  | FlashInfoPageSize
  | FlashInfoNumPages
  | AppInfoPageIdx
  | AppInfoCRCCalc
  | AppInfoCRCStrd
  | FlashReadWord
  | PageBufferClear
  | PageBufferReadWord
  | PageBufferWriteWord
  | PageBufferCalcCRC
  | PageBufferWriteToFlash
  | FlashWriteErasePage
  | FlashWriteAppCRC
deriving DecidableEq, Repr

/-- `RequestType::from_u16`.  The Rust function panics on an unknown value;
the panic is modelled as `none`. -/
def RequestType.from_u16 (value : Nat) : Option RequestType :=
  if value = 0x0001 then some .Ping
  else if value = 0x0011 then some .ResetDevice
  else if value = 0x0012 then some .StartApp
  else if value = 0x0101 then some .DevInfoBootloaderVersion
  else if value = 0x0102 then some .DevInfoBootloaderCRC
  else if value = 0x0103 then some .DevInfoVID
  else if value = 0x0104 then some .DevInfoPID
  else if value = 0x0105 then some .DevInfoPRD
  else if value = 0x0106 then some .DevInfoUID
  else if value = 0x0201 then some .FlashInfoStartAddr
  else if value = 0x0202 then some .FlashInfoPageSize
  else if value = 0x0203 then some .FlashInfoNumPages
  else if value = 0x0301 then some .AppInfoPageIdx
  else if value = 0x0302 then some .AppInfoCRCCalc
  else if value = 0x0303 then some .AppInfoCRCStrd
  else if value = 0x0401 then some .FlashReadWord
  else if value = 0x1001 then some .PageBufferClear
  else if value = 0x1002 then some .PageBufferReadWord
  else if value = 0x1003 then some .PageBufferWriteWord
  else if value = 0x1004 then some .PageBufferCalcCRC
  else if value = 0x1005 then some .PageBufferWriteToFlash
  else if value = 0x1101 then some .FlashWriteErasePage
  else if value = 0x1102 then some .FlashWriteAppCRC
  else none

/-- `RequestType::to_u16`. -/
def RequestType.to_u16 : RequestType → Nat
  | .Ping => 0x0001
  | .ResetDevice => 0x0011
  | .StartApp => 0x0012
  | .DevInfoBootloaderVersion => 0x0101
  | .DevInfoBootloaderCRC => 0x0102
  | .DevInfoVID => 0x0103
  | .DevInfoPID => 0x0104
  | .DevInfoPRD => 0x0105
  | .DevInfoUID => 0x0106
  | .FlashInfoStartAddr => 0x0201
  | .FlashInfoPageSize => 0x0202
  | .FlashInfoNumPages => 0x0203
  | .AppInfoPageIdx => 0x0301
  | .AppInfoCRCCalc => 0x0302
  | .AppInfoCRCStrd => 0x0303
  | .FlashReadWord => 0x0401
  | .PageBufferClear => 0x1001
  | .PageBufferReadWord => 0x1002
  | .PageBufferWriteWord => 0x1003
  | .PageBufferCalcCRC => 0x1004
  | .PageBufferWriteToFlash => 0x1005
  | .FlashWriteErasePage => 0x1101
  | .FlashWriteAppCRC => 0x1102

/-- The u16 values accepted by `RequestType::from_u16`. -/
def request_known_codes : List Nat :=
  [0x0001, 0x0011, 0x0012, 0x0101, 0x0102, 0x0103, 0x0104, 0x0105, 0x0106,
   0x0201, 0x0202, 0x0203, 0x0301, 0x0302, 0x0303, 0x0401,
   0x1001, 0x1002, 0x1003, 0x1004, 0x1005, 0x1101, 0x1102]

/-- Result codes of the bootloader protocol (`ResultType` in com/msg.rs).
Note that this enumeration has no `AckPageFull` variant. -/
inductive ResultType where
  | None
  | Ok
  | Error
  | ErrUnknownReq
  | ErrNotSupported
  | ErrCRCInvld
  | ErrPageFull
  | ErrInvldArg
deriving DecidableEq, Repr

/-- `ResultType::to_u8`. -/
def ResultType.to_u8 : ResultType → Nat
  | .None => 0x00
  | .Ok => 0x01
  | .Error => 0xFE
  | .ErrUnknownReq => 0xFD
  | .ErrNotSupported => 0xFC
  | .ErrCRCInvld => 0xFB
  | .ErrPageFull => 0xFA
  | .ErrInvldArg => 0xF9

/-- `ResultType::from_u8`.  The Rust function panics on an unknown value;
the panic is modelled as `none`. -/
def ResultType.from_u8 (value : Nat) : Option ResultType :=
  if value = 0x00 then some .None
  else if value = 0x01 then some .Ok
  else if value = 0xFE then some .Error
  else if value = 0xFD then some .ErrUnknownReq
  else if value = 0xFC then some .ErrNotSupported
  else if value = 0xFB then some .ErrCRCInvld
  else if value = 0xFA then some .ErrPageFull
  else if value = 0xF9 then some .ErrInvldArg
  else none

/-- The u8 values accepted by `ResultType::from_u8`. -/
def result_known_codes : List Nat :=
  [0x00, 0x01, 0xFE, 0xFD, 0xFC, 0xFB, 0xFA, 0xF9]

/-- `ResultType::is_ok`: exactly `None` and `Ok` count as success. -/
def ResultType.is_ok : ResultType → Bool
  | .None => true
  | .Ok => true
  | _ => false

/-- `ResultType::is_error`. -/
def ResultType.is_error : ResultType → Bool
  | .Error => true
  | .ErrUnknownReq => true
  | .ErrNotSupported => true
  | .ErrCRCInvld => true
  | .ErrPageFull => true
  | .ErrInvldArg => true
  | _ => false

/-- Message payload (`MsgData`): a 4-byte little-endian word.  The Rust type
wraps `[u8; 4]`. -/
structure MsgData where
  data : List Nat
deriving DecidableEq, Repr

/-- `MsgData::new`: the zero payload. -/
def MsgData.new : MsgData := ⟨[0, 0, 0, 0]⟩

/-- `MsgData::from_word`: split a u32 into 4 little-endian bytes. -/
def MsgData.from_word (value : Nat) : MsgData :=
  ⟨[value % 256, value / 2 ^ 8 % 256, value / 2 ^ 16 % 256, value / 2 ^ 24 % 256]⟩

/-- `MsgData::to_word`: reassemble the little-endian u32. -/
def MsgData.to_word (d : MsgData) : Nat :=
  d.data.getD 0 0 ||| (d.data.getD 1 0 <<< 8) ||| (d.data.getD 2 0 <<< 16) |||
    (d.data.getD 3 0 <<< 24)

/-- `MsgData::get_byte`. -/
def MsgData.get_byte (d : MsgData) (idx : Nat) : Nat := d.data.getD idx 0

/-- One protocol message (`Msg`): request code, result code, packet id and a
32-bit payload, packed into 8 bytes on the wire. -/
structure Msg where
  request : RequestType
  result : ResultType
  packet_id : Nat
  data : MsgData
deriving DecidableEq, Repr

/-- `Msg::new_std_request`: result `None`, packet id 0, zero payload. -/
def Msg.new_std_request (request : RequestType) : Msg :=
  ⟨request, .None, 0, MsgData.new⟩

/-- `Msg::from_raw_data_array`: decode an 8-byte frame.  The request code is
the little-endian u16 of bytes 0-1, the result code is byte 2, the packet id
byte 3, the payload bytes 4-7.  A panic of either enum decoder is modelled
as `none`. -/
def Msg.from_raw_data_array (d : List Nat) : Option Msg :=
  match RequestType.from_u16 (d.getD 0 0 ||| (d.getD 1 0 <<< 8)),
        ResultType.from_u8 (d.getD 2 0) with
  | some request, some result =>
      some ⟨request, result, d.getD 3 0, ⟨[d.getD 4 0, d.getD 5 0, d.getD 6 0, d.getD 7 0]⟩⟩
  | _, _ => none

/-- `Msg::to_raw_data_array`: encode the 8-byte frame. -/
def Msg.to_raw_data_array (m : Msg) : List Nat :=
  [m.request.to_u16 % 256, m.request.to_u16 / 2 ^ 8 % 256,
   m.result.to_u8, m.packet_id,
   m.data.get_byte 0, m.data.get_byte 1, m.data.get_byte 2, m.data.get_byte 3]

/-- The unified error taxonomy (`Error` in franklyboot/mod.rs).  The carried
strings are abbreviated forms of the `format!` diagnostics. -/
inductive Error where
  | ComNoResponse
  | ComError (desc : String)
  | ResultError (desc : String)
  | MsgCorruption (desc : String)
  | NotSupported
  | Error (desc : String)
deriving DecidableEq, Repr

/-- `Msg::is_response_ok`: a response is valid iff it echoes the request code
and packet id and carries a success result.  The failure kind is chosen by
checking the result code first, then the packet id, then the request code. -/
def Msg.is_response_ok (self response : Msg) : Except Error Unit :=
  let request_valid := self.request == response.request
  let result_ok := response.result.is_ok
  let packet_id_valid := self.packet_id == response.packet_id
  let msg_valid := request_valid && result_ok && packet_id_valid
  if msg_valid then Except.ok ()
  else if result_ok = false then
    Except.error (Error.ResultError "Request returned error result")
  else if packet_id_valid = false then
    Except.error (Error.MsgCorruption "Message response corrupted packet id invalid!")
  else if request_valid = false then
    Except.error (Error.MsgCorruption "Request type mismatch!")
  else Except.error (Error.Error "Unknown message error!")

/-- `Msg::is_response_data_ok`: the response payload must echo the request
payload. -/
def Msg.is_response_data_ok (self response : Msg) : Except Error Unit :=
  if self.data == response.data then Except.ok ()
  else Except.error (Error.MsgCorruption "Message response data is invalid!")

/-! Deprecated message module `src/src/francor/franklyboot/msg.rs`.  Its
response-code enumeration (`ResponseType`) still carries the full wire list
including the `AckPageFull` acknowledge. -/

/-- Response codes of the deprecated msg.rs module (`ResponseType`). -/
inductive ResponseType where
  | RespNone
  | RespAck
  | RespErr
  | RespUnknownReq
  | RespErrNotSupported
  | RespErrCRCInvld
  | RespAckPageFull
  | RespErrPageFull
  | RespErrInvldArg
deriving DecidableEq, Repr

/-- `ResponseType::to_u8` (deprecated msg.rs). -/
def ResponseType.to_u8 : ResponseType → Nat
  | .RespNone => 0x00
  | .RespAck => 0x01
  | .RespErr => 0xFE
  | .RespUnknownReq => 0xFD
  | .RespErrNotSupported => 0xFC
  | .RespErrCRCInvld => 0xFB
  | .RespAckPageFull => 0xFA
  | .RespErrPageFull => 0xF9
  | .RespErrInvldArg => 0xF8

/-- `ResponseType::from_u8` (deprecated msg.rs); panic modelled as `none`. -/
def ResponseType.from_u8 (value : Nat) : Option ResponseType :=
  if value = 0x00 then some .RespNone
  else if value = 0x01 then some .RespAck
  else if value = 0xFE then some .RespErr
  else if value = 0xFD then some .RespUnknownReq
  else if value = 0xFC then some .RespErrNotSupported
  else if value = 0xFB then some .RespErrCRCInvld
  else if value = 0xFA then some .RespAckPageFull
  else if value = 0xF9 then some .RespErrPageFull
  else if value = 0xF8 then some .RespErrInvldArg
  else none

/-! Flash layout of `src/src/francor/franklyboot/device/flash.rs`. -/

/-- Error kinds of `FlashDesc::add_section`. -/
inductive FlashDescError where
  | FlashSectionAddressInvalid
  | FlashSectionSizeInvalid
  | FlashSectionSizeTooBig
  | FlashAreaAlreadyUsed
  | FlashNameAlreadyUsed
deriving DecidableEq, Repr

/-- A named flash section (`FlashSection`). -/
structure FlashSection where
  name : String
  address : Nat
  size : Nat
  flash_page_id : Nat
deriving DecidableEq, Repr

/-- The flash description (`FlashDesc`): base address, total size, page size
and the stored sections. -/
structure FlashDesc where
  address : Nat
  size : Nat
  page_size : Nat
  section_lst : List FlashSection
deriving DecidableEq, Repr

/-- `FlashDesc::new`. -/
def FlashDesc.new (address size page_size : Nat) : FlashDesc :=
  ⟨address, size, page_size, []⟩

/-- Outcome of `FlashDesc::add_section`.  `underflow` models the u32
arithmetic underflow of `address - self.address` (a panic in a debug build,
a wrapped page id in a release build), which the Rust code reaches whenever
every rejection check passes while `address < self.address`. -/
inductive AddSectionResult where
  | err (e : FlashDescError)
  | underflow
  | ok (d : FlashDesc)
deriving DecidableEq, Repr

/-- `FlashDesc::add_section`, with its checks in source order: duplicate
name, page alignment of the address, page-size multiple for the size,
extension past the flash end, then the two-clause overlap test against every
stored section.  All quantities in the verified claims stay below 2^32, so
the u32 sums are modelled as Nat sums; the `%` tests assume a nonzero page
size exactly as the Rust division does. -/
def FlashDesc.add_section (d : FlashDesc) (name : String) (address size : Nat) :
    AddSectionResult :=
  if d.section_lst.any (fun s => s.name == name) then
    .err .FlashNameAlreadyUsed
  else if address % d.page_size ≠ 0 then
    .err .FlashSectionAddressInvalid
  else if size % d.page_size ≠ 0 then
    .err .FlashSectionSizeInvalid
  else if address + size > d.address + d.size then
    .err .FlashSectionSizeTooBig
  else if d.section_lst.any (fun s =>
      decide (s.address ≤ address ∧ s.address + s.size > address) ||
      decide (s.address < address + size ∧ s.address + s.size ≥ address + size)) then
    .err .FlashAreaAlreadyUsed
  else if address < d.address then
    .underflow
  else
    .ok { d with
      section_lst :=
        d.section_lst ++ [⟨name, address, size, (address - d.address) / d.page_size⟩] }

/-! Device entries of `src/src/francor/franklyboot/device/entry.rs`. -/

/-- Entry categories (`EntryType`). -/
inductive EntryType where
  | Const
  | RO
  | RW
  | Cmd
deriving DecidableEq, Repr

/-- `EntryType::is_const`. -/
def EntryType.is_const : EntryType → Bool
  | .Const => true
  | _ => false

/-- `EntryType::is_readable`. -/
def EntryType.is_readable : EntryType → Bool
  | .Const => true
  | .RO => true
  | .RW => true
  | .Cmd => false

/-- `EntryType::is_writeable`. -/
def EntryType.is_writeable : EntryType → Bool
  | .RW => true
  | _ => false

/-- `EntryType::is_executable`. -/
def EntryType.is_executable : EntryType → Bool
  | .Cmd => true
  | _ => false

/-- A device entry (`Entry`): category, name, request code and the cached
payload (`None` while uninitialized). -/
structure Entry where
  entry_type : EntryType
  name : String
  request_type : RequestType
  value : Option MsgData
deriving DecidableEq, Repr

/-- `Entry::new`: the cache starts empty. -/
def Entry.new (entry_type : EntryType) (name : String) (request_type : RequestType) :
    Entry :=
  ⟨entry_type, name, request_type, none⟩

/-- A transport (`ComInterface` as consumed by `Entry`): state-passing `send`
and `recv` over an arbitrary state type. -/
structure Iface (σ : Type) where
  send : σ → Msg → Except Error σ
  recv : σ → Except Error (Msg × σ)

/-- Outcome of `Entry::read_value`.  `unwrapNone` models the Rust
`self.value.as_ref().unwrap()` panic on an empty cache. -/
inductive ReadOutcome where
  | ok (d : MsgData)
  | err (e : Error)
  | unwrapNone
deriving DecidableEq, Repr

/-- `Entry::_read_from_device`: send the standard request, receive one
response, validate it with `is_response_ok` and cache the payload.  The last
component is the list of requests handed to `send`. -/
def Entry.read_from_device {σ : Type} (I : Iface σ) (e : Entry) (s : σ) :
    Except Error Unit × Entry × σ × List Msg :=
  let request := Msg.new_std_request e.request_type
  match I.send s request with
  | .error er => (.error er, e, s, [request])
  | .ok s1 =>
    match I.recv s1 with
    | .error er => (.error er, e, s1, [request])
    | .ok (response, s2) =>
      match request.is_response_ok response with
      | .error er => (.error er, e, s2, [request])
      | .ok _ => (.ok (), { e with value := some response.data }, s2, [request])

/-- `Entry::read_value`: guarded by `is_readable`; the device is consulted
only when the entry is `Const` and its cache is empty, and afterwards the
cache is unwrapped unconditionally.  The last component is the list of
requests handed to `send` during the call. -/
def Entry.read_value {σ : Type} (I : Iface σ) (e : Entry) (s : σ) :
    ReadOutcome × Entry × σ × List Msg :=
  if e.entry_type.is_readable then
    if e.entry_type.is_const && e.value.isNone then
      match Entry.read_from_device I e s with
      | (.error er, e1, s1, tr) => (.err er, e1, s1, tr)
      | (.ok _, e1, s1, tr) =>
        match e1.value with
        | some d => (.ok d, e1, s1, tr)
        | none => (.unwrapNone, e1, s1, tr)
    else
      match e.value with
      | some d => (.ok d, e, s, [])
      | none => (.unwrapNone, e, s, [])
  else
    (.err (Error.Error "Device entry is not readable!"), e, s, [])

/-! Firmware assembler of `src/common/src/francor/franklyboot/firmware/mod.rs`
and its flash pages (`src/common/src/francor/franklyboot/flash/flash_page.rs`). -/

/-- The flash erased state (`FLASH_DFT_VALUE`). -/
def FLASH_DFT_VALUE : Nat := 0xFF

/-- One flash page (`FlashPage`): page id, absolute address, byte vector and
its CRC-32. -/
structure FlashPage where
  id : Nat
  address : Nat
  bytes : List Nat
  crc : Nat
deriving DecidableEq, Repr

/-- `FlashPage::new`: the CRC starts at 0. -/
def FlashPage.new (id address : Nat) (bytes : List Nat) : FlashPage :=
  ⟨id, address, bytes, 0⟩

/-- `FlashPage::calculate_crc`. -/
def FlashPage.calculate_crc (p : FlashPage) : FlashPage :=
  { p with crc := crc32 p.bytes }

/-- The firmware image under assembly (`AppFirmware`): application start
address, page size, number of pages of the application region, the pages in
insertion order, and the whole-image CRC. -/
structure AppFirmware where
  app_start_address : Nat
  flash_page_size : Nat
  flash_num_pages : Nat
  page_lst : List FlashPage
  crc : Nat
deriving DecidableEq, Repr

/-- `AppFirmware::get_page`: lookup by page id (first match in insertion
order). -/
def AppFirmware.get_page (a : AppFirmware) (page_id : Nat) : Option FlashPage :=
  a.page_lst.find? (fun page => page.id == page_id)

/-- The byte vector `app_flash` built by `AppFirmware::_calc_app_crc` before
the four pops: pages appended in ascending page id over the whole region,
an all-0xFF page standing in for every missing id. -/
def AppFirmware.calc_app_crc_bytes (a : AppFirmware) : List Nat :=
  (List.range a.flash_num_pages).foldl
    (fun app_flash page_id =>
      match a.get_page page_id with
      | some page => app_flash ++ page.bytes
      | none => app_flash ++ List.replicate a.flash_page_size FLASH_DFT_VALUE)
    []

/-- `AppFirmware::_calc_app_crc`: pop the last four bytes (the stored-CRC
slot) and hash the rest. -/
def AppFirmware.calc_app_crc (a : AppFirmware) : Nat :=
  crc32 a.calc_app_crc_bytes.dropLast.dropLast.dropLast.dropLast

/-- Modelled from the spec: the whole-image byte sequence as the
specification words it — "concatenating the pages in ascending page_id over
[0, flash_num_pages), substituting an all-0xFF page of page_size bytes for
every page_id with no page present".  Used as the reference side of the
refinement statement about `_calc_app_crc`. -/
def AppFirmware.app_image_bytes_spec (a : AppFirmware) : List Nat :=
  ((List.range a.flash_num_pages).map
    (fun page_id =>
      match a.get_page page_id with
      | some page => page.bytes
      | none => List.replicate a.flash_page_size FLASH_DFT_VALUE)).flatten

/-- Modelled from the spec: the whole-image CRC — the CRC-32 of the image
bytes "with the final four bytes (the stored-CRC slot) removed before
hashing". -/
def AppFirmware.app_crc_spec (a : AppFirmware) : Nat :=
  crc32 ((a.app_image_bytes_spec).take ((a.app_image_bytes_spec).length - 4))

/-! Device driver of `src/src/francor/franklyboot/device/device.rs`.  The
driver routes every round trip through its entry table; each transmitted
round trip is recorded as one `Cmd` in a trace, and the device at the other
end of the transport is a deterministic oracle answering each command in the
context of the history so far.  Reads of RO entries issue no round trip at
all: they go through `Entry::read_value` (entry.rs), which consults the
device only for a Const entry with an empty cache. -/

/-- One request round trip issued by the driver: an entry execute or an
entry write.  (Entry reads never reach the transport, see
`Device.read_ro_entry`.) -/
inductive Cmd where
  | exec (request_type : RequestType) (arg : Nat)
  | write (request_type : RequestType) (packet_id word : Nat)
deriving DecidableEq, Repr

/-- The request code a command carries on the wire. -/
def Cmd.req : Cmd → RequestType
  | .exec rt _ => rt
  | .write rt _ _ => rt

/-- A device at the other end of the transport: a deterministic answer
(payload word, or a transport or validation error) to each command given the
history of commands already issued. -/
def Oracle : Type := List Cmd → Cmd → Except Error Nat

/-- Outcome of a driver step: a value, a propagated `Error`, or a Rust
panic (an `unwrap` of `None`). -/
inductive RunResult (α : Type) where
  | ok (a : α)
  | err (e : Error)
  | panicked
deriving DecidableEq, Repr

/-- Modelled from the spec: `Entry::exec` as the current `Device` calls it
(the two-argument entry methods and `EntryList` it uses are not present under
src; spec section 4.C describes exec as a request with packet id 0 and the
argument as payload, validated like a write).  One request is issued per
call and appended to the trace whatever the outcome. -/
def Entry.exec_entry (o : Oracle) (tr : List Cmd) (rt : RequestType) (arg : Nat) :
    Except Error Unit × List Cmd :=
  let c := Cmd.exec rt arg
  (match o tr c with
   | .ok _ => .ok ()
   | .error e => .error e, tr ++ [c])

/-- Modelled from the spec: `Entry::write_value` as the current `Device`
calls it (not present under src; spec section 4.C: issue a request with the
given packet id and payload, validate response and data echo).  One request
is issued per call and appended to the trace whatever the outcome. -/
def Entry.write_entry (o : Oracle) (tr : List Cmd) (rt : RequestType)
    (packet_id word : Nat) : Except Error Unit × List Cmd :=
  let c := Cmd.write rt packet_id word
  (match o tr c with
   | .ok _ => .ok ()
   | .error e => .error e, tr ++ [c])

/-- The entry read performed by `Device::read_entry_value` on one of the
driver's RO entries (`PageBufferCalcCRC`, `AppInfoCRCCalc`), followed by
`.to_word()`.  `read_entry_value` calls `Entry::read_value` (entry.rs),
which consults the device only when the entry is Const with an empty cache;
for an RO entry it issues no request and unconditionally unwraps the cached
value — a panic when the cache is empty, the stale cached word otherwise
(see `read_value_ro_entry_general` for the derivation from
`Entry.read_value`).  The trace is returned unchanged: no transport traffic
occurs.  Inside the driver the RO caches are always empty: `Entry::new`
starts every cache at `None` and the only writer of a cache,
`Entry::_read_from_device`, is reached only for Const entries. -/
def Device.read_ro_entry (value : Option MsgData) (tr : List Cmd) :
    RunResult Nat × List Cmd :=
  match value with
  | some d => (.ok d.to_word, tr)
  | none => (.panicked, tr)

/-- The 32-bit word assembled from four consecutive page bytes at word index
`msg_idx` inside `Device::_flash_app_pages` (the Rust code indexes the page
byte vector directly; pages carry exactly one page of bytes, so the `getD`
default is never consulted on the inputs the driver builds). -/
def page_word (bytes : List Nat) (msg_idx : Nat) : Nat :=
  let byte_offset := msg_idx * 4
  bytes.getD byte_offset 0 ||| (bytes.getD (byte_offset + 1) 0 <<< 8) |||
    (bytes.getD (byte_offset + 2) 0 <<< 16) ||| (bytes.getD (byte_offset + 3) 0 <<< 24)

/-- The word loop of `Device::_flash_app_pages`: one `PageBufferWriteWord`
write per word index, packet id `msg_idx % 256`, aborting on the first
failed round trip. -/
def Device.write_page_words (o : Oracle) (bytes : List Nat) (idxs : List Nat)
    (tr : List Cmd) : Except Error Unit × List Cmd :=
  match idxs with
  | [] => (.ok (), tr)
  | msg_idx :: rest =>
    match Entry.write_entry o tr .PageBufferWriteWord (msg_idx % 256)
        (page_word bytes msg_idx) with
    | (.ok _, tr1) => Device.write_page_words o bytes rest tr1
    | (.error e, tr1) => (.error e, tr1)

/-- The body of the page loop of `Device::_flash_app_pages`: clear the page
buffer, stream the words, read back the page-buffer CRC (through the RO
entry `PageBufferCalcCRC`, whose cached value is `calc_cache`) and compare
it with the host-side page CRC, then erase and commit the absolute flash
page.  The comparison and the flash writes are unreachable inside the
driver, where `calc_cache` is always `None` and the read panics. -/
def Device.flash_one_page (o : Oracle) (page_size sec_first_page_id : Nat)
    (calc_cache : Option MsgData) (page : FlashPage) (tr : List Cmd) :
    RunResult Unit × List Cmd :=
  match Entry.exec_entry o tr .PageBufferClear 0 with
  | (.error e, tr1) => (.err e, tr1)
  | (.ok _, tr1) =>
    match Device.write_page_words o page.bytes (List.range (page_size / 4)) tr1 with
    | (.error e, tr2) => (.err e, tr2)
    | (.ok _, tr2) =>
      match Device.read_ro_entry calc_cache tr2 with
      | (.err e, tr3) => (.err e, tr3)
      | (.panicked, tr3) => (.panicked, tr3)
      | (.ok page_dev_crc, tr3) =>
        if page_dev_crc ≠ page.crc then
          (.err (Error.Error "Page buffer CRC is invalid!"), tr3)
        else
          match Entry.exec_entry o tr3 .FlashWriteErasePage (page.id + sec_first_page_id) with
          | (.error e, tr4) => (.err e, tr4)
          | (.ok _, tr4) =>
            match Entry.exec_entry o tr4 .PageBufferWriteToFlash
                (page.id + sec_first_page_id) with
            | (.error e, tr5) => (.err e, tr5)
            | (.ok _, tr5) => (.ok (), tr5)

/-- The page loop of `Device::_flash_app_pages` over a list of pages in
insertion order. -/
def Device.flash_app_pages_go (o : Oracle) (page_size sec_first_page_id : Nat)
    (calc_cache : Option MsgData) (pages : List FlashPage) (tr : List Cmd) :
    RunResult Unit × List Cmd :=
  match pages with
  | [] => (.ok (), tr)
  | page :: rest =>
    match Device.flash_one_page o page_size sec_first_page_id calc_cache page tr with
    | (.err e, tr1) => (.err e, tr1)
    | (.panicked, tr1) => (.panicked, tr1)
    | (.ok _, tr1) =>
      Device.flash_app_pages_go o page_size sec_first_page_id calc_cache rest tr1

/-- `Device::_flash_app_pages`: stream every page held by the image to the
device.  `sec_first_page_id` is `Application.first_page_id` (the driver reads
it from the Application section of its flash description); `calc_cache` is
the cached value of the `PageBufferCalcCRC` RO entry. -/
def Device.flash_app_pages (o : Oracle) (app : AppFirmware) (sec_first_page_id : Nat)
    (calc_cache : Option MsgData) (tr : List Cmd) : RunResult Unit × List Cmd :=
  Device.flash_app_pages_go o app.flash_page_size sec_first_page_id calc_cache
    app.page_lst tr

/-- The loop of `Device::_erase_unused_pages` over a list of candidate page
ids: erase the absolute flash page for every candidate with no page in the
image. -/
def Device.erase_unused_go (o : Oracle) (app : AppFirmware) (app_start_page_idx : Nat)
    (ids : List Nat) (tr : List Cmd) : Except Error Unit × List Cmd :=
  match ids with
  | [] => (.ok (), tr)
  | app_page_id :: rest =>
    if (app.get_page app_page_id).isNone then
      match Entry.exec_entry o tr .FlashWriteErasePage (app_page_id + app_start_page_idx) with
      | (.error e, tr1) => (.error e, tr1)
      | (.ok _, tr1) => Device.erase_unused_go o app app_start_page_idx rest tr1
    else
      Device.erase_unused_go o app app_start_page_idx rest tr

/-- `Device::_erase_unused_pages`: the candidate page ids are
`0 .. app.get_page_lst().len()`, the number of pages HELD by the image (not
the number of pages of the application region).  `app_start_page_idx` is the
cached `AppInfoPageIdx` constant; the cached `FlashInfoNumPages` constant is
read by the Rust code as well but feeds only a progress println. -/
def Device.erase_unused_pages (o : Oracle) (app : AppFirmware)
    (app_start_page_idx : Nat) (tr : List Cmd) : Except Error Unit × List Cmd :=
  Device.erase_unused_go o app app_start_page_idx (List.range app.page_lst.length) tr

/-- `Device::is_app_crc_valid`: read `AppInfoCRCCalc` (an RO entry, cached
value `app_cache`) and compare it with the host-computed whole-image CRC.
The read goes through `Entry::read_value` and never touches the transport;
it panics inside the driver, where `app_cache` is always `None`. -/
def Device.is_app_crc_valid (app : AppFirmware) (app_cache : Option MsgData)
    (tr : List Cmd) : RunResult Bool × List Cmd :=
  match Device.read_ro_entry app_cache tr with
  | (.err e, tr1) => (.err e, tr1)
  | (.panicked, tr1) => (.panicked, tr1)
  | (.ok dev_crc, tr1) => (.ok (app.crc == dev_crc), tr1)

/-- `Device::_check_app_crc`: verify the whole-image CRC; on mismatch run the
recovery pass `_erase_unused_pages` and verify once more, failing with
`Error("CRC check failed!")` if the CRC still disagrees.  A repeated RO read
leaves the cache unchanged, so both reads see the same `app_cache`. -/
def Device.check_app_crc (o : Oracle) (app : AppFirmware) (app_start_page_idx : Nat)
    (app_cache : Option MsgData) (tr : List Cmd) : RunResult Unit × List Cmd :=
  match Device.is_app_crc_valid app app_cache tr with
  | (.err e, tr1) => (.err e, tr1)
  | (.panicked, tr1) => (.panicked, tr1)
  | (.ok true, tr1) => (.ok (), tr1)
  | (.ok false, tr1) =>
    match Device.erase_unused_pages o app app_start_page_idx tr1 with
    | (.error e, tr2) => (.err e, tr2)
    | (.ok _, tr2) =>
      match Device.is_app_crc_valid app app_cache tr2 with
      | (.err e, tr3) => (.err e, tr3)
      | (.panicked, tr3) => (.panicked, tr3)
      | (.ok true, tr3) => (.ok (), tr3)
      | (.ok false, tr3) => (.err (Error.Error "CRC check failed!"), tr3)

/-- `Device::flash` from the point where the `AppFirmware` image has been
built (building the image from the firmware data interface issues no
transport traffic): stream the pages, verify the whole-image CRC (with the
recovery pass), commit the CRC via `FlashWriteAppCRC`, then start the
application.  `calc_cache` and `app_cache` are the cached values of the
`PageBufferCalcCRC` and `AppInfoCRCCalc` RO entries; in the driver both are
always `None`. -/
def Device.flash_run (o : Oracle) (app : AppFirmware)
    (sec_first_page_id app_start_page_idx : Nat)
    (calc_cache app_cache : Option MsgData) : RunResult Unit × List Cmd :=
  match Device.flash_app_pages o app sec_first_page_id calc_cache [] with
  | (.err e, tr1) => (.err e, tr1)
  | (.panicked, tr1) => (.panicked, tr1)
  | (.ok _, tr1) =>
    match Device.check_app_crc o app app_start_page_idx app_cache tr1 with
    | (.err e, tr2) => (.err e, tr2)
    | (.panicked, tr2) => (.panicked, tr2)
    | (.ok _, tr2) =>
      match Entry.exec_entry o tr2 .FlashWriteAppCRC app.crc with
      | (.error e, tr3) => (.err e, tr3)
      | (.ok _, tr3) =>
        match Entry.exec_entry o tr3 .StartApp 0 with
        | (.error e, tr4) => (.err e, tr4)
        | (.ok _, tr4) => (.ok (), tr4)

/-! CAN transport binding of `src/common/src/francor/franklyboot/com/can.rs`
(the file under src/src is identical in its addressing arithmetic).  The
socket I/O is an OS boundary; the addressing arithmetic below is the part of
the wire contract the code owns. -/

/-- `CAN_BASE_ID`. -/
def CAN_BASE_ID : Nat := 0x781

/-- `CAN_BROADCAST_ID`. -/
def CAN_BROADCAST_ID : Nat := 0x780

/-- `CAN_MAX_ID`. -/
def CAN_MAX_ID : Nat := 0x7FF

/-- Addressing mode of a transport (`ComMode`). -/
inductive ComMode where
  | Broadcast
  | Specific (node_id : Nat)
deriving DecidableEq, Repr

/-- The arbitration id `CANInterface::send` puts on every transmitted frame:
always the broadcast id. -/
def CANInterface.send_arbitration_id : Nat := CAN_BROADCAST_ID

/-- The receive filter `(id, mask)` installed by `CANInterface::set_mode`:
zero id and mask for broadcast, and `CAN_BASE_ID + node_id * 2 + 1` with the
full standard-id mask for a specific node. -/
def CANInterface.set_mode_filter : ComMode → Nat × Nat
  | .Broadcast => (0, 0)
  | .Specific node_id => (CAN_BASE_ID + node_id * 2 + 1, 0x7FF)

/-- The node id `CANInterface::scan_network` recovers from the arbitration id
of a received frame: `((raw_id - CAN_BASE_ID) / 2) as u8`. -/
def CANInterface.scan_node_id (raw_id : Nat) : Nat :=
  ((raw_id - CAN_BASE_ID) / 2) % 256

/-! Classification helper for response-validation outcomes, used to state
which error kind `Msg::is_response_ok` selects. -/

/-- The observable kind of a response-validation outcome. -/
inductive RespCheckKind where
  | ok
  | resultError
  | msgCorruption
  | otherError
deriving DecidableEq, Repr

/-- Map a validation outcome to its kind, forgetting the diagnostic text. -/
def classify_response_check : Except Error Unit → RespCheckKind
  | .ok _ => .ok
  | .error (.ResultError _) => .resultError
  | .error (.MsgCorruption _) => .msgCorruption
  | .error _ => .otherError

/-! Concrete fixtures used by witnesses and counterexamples. -/

/-- A one-page firmware fixture: page 0 of a 4-byte-page region, bytes
`AA FF FF FF`, with its page CRC computed. -/
def fw_page0 : FlashPage :=
  (FlashPage.new 0 0x08000800 [0xAA, 0xFF, 0xFF, 0xFF]).calculate_crc

/-- A firmware image holding `fw_page0` as the single page of a two-page
application region, whole-image CRC computed as the assembler computes it. -/
def app_fw0 : AppFirmware :=
  let base : AppFirmware := ⟨0x08000800, 4, 2, [fw_page0], 0⟩
  { base with crc := base.calc_app_crc }

/-- A firmware image holding a single page (page 0) of a FOUR-page
application region: pages 1, 2 and 3 of the region are not present. -/
def app_fw_sparse : AppFirmware :=
  let base : AppFirmware := ⟨0x08000800, 4, 4, [fw_page0], 0⟩
  { base with crc := base.calc_app_crc }

/-- An oracle acknowledging every request with payload 0. -/
def oracle_ack : Oracle := fun _ _ => .ok 0

/-! Theorems.  First general sanity checks and helper lemmas, then one
theorem per specification claim (with witnesses and counterexamples where
the claim status requires them). -/

/-- The check value of the repository test `test_crc32_checksum_algo`:
crc32 of the bytes 1..9 is 0x40EFAB9E.  This pins the embedded CRC-32 to the
algorithm the code uses. -/
theorem crc32_check_value : crc32 [1, 2, 3, 4, 5, 6, 7, 8, 9] = 0x40EFAB9E := by
  decide

/-- Helper: `RequestType::from_u16` rejects every value outside the known
code list. -/
theorem request_from_u16_eq_none (v : Nat) (hv : v ∉ request_known_codes) :
    RequestType.from_u16 v = none := by
  have n1 : v ≠ 0x0001 := fun h => hv (by rw [h]; decide)
  have n2 : v ≠ 0x0011 := fun h => hv (by rw [h]; decide)
  have n3 : v ≠ 0x0012 := fun h => hv (by rw [h]; decide)
  have n4 : v ≠ 0x0101 := fun h => hv (by rw [h]; decide)
  have n5 : v ≠ 0x0102 := fun h => hv (by rw [h]; decide)
  have n6 : v ≠ 0x0103 := fun h => hv (by rw [h]; decide)
  have n7 : v ≠ 0x0104 := fun h => hv (by rw [h]; decide)
  have n8 : v ≠ 0x0105 := fun h => hv (by rw [h]; decide)
  have n9 : v ≠ 0x0106 := fun h => hv (by rw [h]; decide)
  have n10 : v ≠ 0x0201 := fun h => hv (by rw [h]; decide)
  have n11 : v ≠ 0x0202 := fun h => hv (by rw [h]; decide)
  have n12 : v ≠ 0x0203 := fun h => hv (by rw [h]; decide)
  have n13 : v ≠ 0x0301 := fun h => hv (by rw [h]; decide)
  have n14 : v ≠ 0x0302 := fun h => hv (by rw [h]; decide)
  have n15 : v ≠ 0x0303 := fun h => hv (by rw [h]; decide)
  have n16 : v ≠ 0x0401 := fun h => hv (by rw [h]; decide)
  have n17 : v ≠ 0x1001 := fun h => hv (by rw [h]; decide)
  have n18 : v ≠ 0x1002 := fun h => hv (by rw [h]; decide)
  have n19 : v ≠ 0x1003 := fun h => hv (by rw [h]; decide)
  have n20 : v ≠ 0x1004 := fun h => hv (by rw [h]; decide)
  have n21 : v ≠ 0x1005 := fun h => hv (by rw [h]; decide)
  have n22 : v ≠ 0x1101 := fun h => hv (by rw [h]; decide)
  have n23 : v ≠ 0x1102 := fun h => hv (by rw [h]; decide)
  unfold RequestType.from_u16
  rw [if_neg n1, if_neg n2, if_neg n3, if_neg n4, if_neg n5, if_neg n6, if_neg n7,
    if_neg n8, if_neg n9, if_neg n10, if_neg n11, if_neg n12, if_neg n13, if_neg n14,
    if_neg n15, if_neg n16, if_neg n17, if_neg n18, if_neg n19, if_neg n20, if_neg n21,
    if_neg n22, if_neg n23]

/-- Helper: `ResultType::from_u8` rejects every value outside the known code
list. -/
theorem result_from_u8_eq_none (v : Nat) (hv : v ∉ result_known_codes) :
    ResultType.from_u8 v = none := by
  have n1 : v ≠ 0x00 := fun h => hv (by rw [h]; decide)
  have n2 : v ≠ 0x01 := fun h => hv (by rw [h]; decide)
  have n3 : v ≠ 0xFE := fun h => hv (by rw [h]; decide)
  have n4 : v ≠ 0xFD := fun h => hv (by rw [h]; decide)
  have n5 : v ≠ 0xFC := fun h => hv (by rw [h]; decide)
  have n6 : v ≠ 0xFB := fun h => hv (by rw [h]; decide)
  have n7 : v ≠ 0xFA := fun h => hv (by rw [h]; decide)
  have n8 : v ≠ 0xF9 := fun h => hv (by rw [h]; decide)
  unfold ResultType.from_u8
  rw [if_neg n1, if_neg n2, if_neg n3, if_neg n4, if_neg n5, if_neg n6, if_neg n7,
    if_neg n8]

/-- C1 counterexample: the claimed wire listing does not match the active
`ResultType`: `ErrPageFull` encodes as 0xFA (the claim assigns it 0xF9), and
0xF8 (the value the claim assigns to `ErrInvldArg`) decodes to no result
code at all. -/
theorem result_type_wire_values_cex :
    ResultType.to_u8 ResultType.ErrPageFull = 0xFA ∧ (0xFA : Nat) ≠ 0xF9 ∧
    ResultType.from_u8 0xF8 = none := by
  decide

/-- C1 (amended): the active `ResultType` encodes None=0x00, Ok=0x01,
Error=0xFE, ErrUnknownReq=0xFD, ErrNotSupported=0xFC, ErrCRCInvld=0xFB,
ErrPageFull=0xFA and ErrInvldArg=0xF9 (it has no AckPageFull variant);
`from_u8` inverts `to_u8`; exactly None and Ok count as success; and the
full listing of the claim (with AckPageFull=0xFA, ErrPageFull=0xF9,
ErrInvldArg=0xF8) is the one carried by the deprecated `ResponseType`. -/
theorem result_type_wire_values :
    (ResultType.to_u8 .None = 0x00 ∧ ResultType.to_u8 .Ok = 0x01 ∧
     ResultType.to_u8 .Error = 0xFE ∧ ResultType.to_u8 .ErrUnknownReq = 0xFD ∧
     ResultType.to_u8 .ErrNotSupported = 0xFC ∧ ResultType.to_u8 .ErrCRCInvld = 0xFB ∧
     ResultType.to_u8 .ErrPageFull = 0xFA ∧ ResultType.to_u8 .ErrInvldArg = 0xF9) ∧
    (∀ r : ResultType, ResultType.from_u8 (ResultType.to_u8 r) = some r) ∧
    ResultType.from_u8 0xF8 = none ∧
    (∀ r : ResultType, r.is_ok = true ↔ r = .None ∨ r = .Ok) ∧
    (ResponseType.to_u8 .RespNone = 0x00 ∧ ResponseType.to_u8 .RespAck = 0x01 ∧
     ResponseType.to_u8 .RespErr = 0xFE ∧ ResponseType.to_u8 .RespUnknownReq = 0xFD ∧
     ResponseType.to_u8 .RespErrNotSupported = 0xFC ∧
     ResponseType.to_u8 .RespErrCRCInvld = 0xFB ∧
     ResponseType.to_u8 .RespAckPageFull = 0xFA ∧
     ResponseType.to_u8 .RespErrPageFull = 0xF9 ∧
     ResponseType.to_u8 .RespErrInvldArg = 0xF8) ∧
    (∀ r : ResponseType, ResponseType.from_u8 (ResponseType.to_u8 r) = some r) := by
  refine ⟨by decide, ?_, by decide, ?_, by decide, ?_⟩
  · intro r; cases r <;> rfl
  · intro r; cases r <;> decide
  · intro r; cases r <;> rfl

/-- C2: `Entry::read_value` consults the device only for a `Const` entry
with an empty cache.  Evaluated on an RO entry (the failing input): with an
empty cache the call issues no request at all and panics unwrapping the
cache, and with a populated cache it returns the stale cached payload, again
without any transport traffic — for every transport. -/
theorem read_value_ro_never_rereads {σ : Type} (I : Iface σ) (s : σ) (d : MsgData) :
    Entry.read_value I ⟨.RO, "AppInfoCRCCalc", .AppInfoCRCCalc, none⟩ s =
      (.unwrapNone, ⟨.RO, "AppInfoCRCCalc", .AppInfoCRCCalc, none⟩, s, []) ∧
    Entry.read_value I ⟨.RO, "AppInfoCRCCalc", .AppInfoCRCCalc, some d⟩ s =
      (.ok d, ⟨.RO, "AppInfoCRCCalc", .AppInfoCRCCalc, some d⟩, s, []) :=
  ⟨rfl, rfl⟩

/-- C6: `FlashDesc::add_section` accepts a section that strictly contains a
previously stored section.  After storing section A = [0x08000400,
0x08000800), adding section B = [0x08000000, 0x08001000) succeeds even
though B covers every byte of A (the two final conjuncts), instead of being
rejected with `FlashAreaAlreadyUsed`. -/
theorem add_section_accepts_containing_overlap :
    (FlashDesc.new 0x08000000 0x10000 0x400).add_section "A" 0x08000400 0x400 =
      .ok ⟨0x08000000, 0x10000, 0x400, [⟨"A", 0x08000400, 0x400, 1⟩]⟩ ∧
    (FlashDesc.mk 0x08000000 0x10000 0x400 [⟨"A", 0x08000400, 0x400, 1⟩]).add_section
        "B" 0x08000000 0x1000 =
      .ok ⟨0x08000000, 0x10000, 0x400,
        [⟨"A", 0x08000400, 0x400, 1⟩, ⟨"B", 0x08000000, 0x1000, 0⟩]⟩ ∧
    (0x08000000 : Nat) ≤ 0x08000400 ∧ (0x08000400 : Nat) + 0x400 ≤ 0x08000000 + 0x1000 := by
  decide

/-- C10: whenever every rejection check of `add_section` passes while the
section address lies below the flash base address, the u32 computation
`(address - base) / page_size` underflows: the call panics in a debug build
(wraps in release) instead of returning an error. -/
theorem add_section_below_base_underflows (d : FlashDesc) (nm : String)
    (address size : Nat)
    (hname : d.section_lst.any (fun s => s.name == nm) = false)
    (haddr : address % d.page_size = 0)
    (hsize : size % d.page_size = 0)
    (hend : ¬ address + size > d.address + d.size)
    (hov : d.section_lst.any (fun s =>
        decide (s.address ≤ address ∧ s.address + s.size > address) ||
        decide (s.address < address + size ∧ s.address + s.size ≥ address + size)) = false)
    (hlow : address < d.address) :
    d.add_section nm address size = .underflow := by
  simp [FlashDesc.add_section, hname, haddr, hsize, hend, hlow]
  intro x hx
  have h := List.any_eq_false.mp hov x hx
  simpa using h

/-- C10 witness: a page-aligned one-page section at 0x400, far below the
flash base 0x08000000 but ending inside the flash, reaches the underflow. -/
theorem add_section_below_base_underflows_witness :
    (FlashDesc.new 0x08000000 0x10000 0x400).add_section "low" 0x400 0x400 =
      .underflow :=
  add_section_below_base_underflows (FlashDesc.new 0x08000000 0x10000 0x400)
    "low" 0x400 0x400 (by decide) (by decide) (by decide) (by decide) (by decide)
    (by decide)

/-- C7 counterexample: for node 0 the installed receive filter id is 0x782,
not the claimed 0x781 + 2·0 = 0x781. -/
theorem can_filter_id_cex :
    CANInterface.set_mode_filter (ComMode.Specific 0) = (0x782, 0x7FF) ∧
    (0x782 : Nat) ≠ 0x781 + 2 * 0 := by
  decide

/-- C7 (amended): broadcast frames go out on 0x780; `set_mode(Specific(N))`
installs filter id `CAN_BASE_ID + 2·N + 1 = 0x782 + 2·N` with mask 0x7FF;
and `scan_network` recovers N from that very arbitration id by the integer
division `(raw_id − 0x781) / 2`. -/
theorem can_addressing (n : Nat) (h : n < 256) :
    CANInterface.send_arbitration_id = 0x780 ∧
    CANInterface.set_mode_filter (.Specific n) = (0x782 + 2 * n, 0x7FF) ∧
    CANInterface.scan_node_id (0x782 + 2 * n) = n := by
  refine ⟨rfl, ?_, ?_⟩
  · simp only [CANInterface.set_mode_filter, CAN_BASE_ID]
    congr 1
    omega
  · simp only [CANInterface.scan_node_id, CAN_BASE_ID]
    omega

/-- C7 witness: node 3 filters on 0x788 and is recovered from 0x788. -/
theorem can_addressing_witness :
    CANInterface.send_arbitration_id = 0x780 ∧
    CANInterface.set_mode_filter (.Specific 3) = (0x782 + 2 * 3, 0x7FF) ∧
    CANInterface.scan_node_id (0x782 + 2 * 3) = 3 :=
  can_addressing 3 (by decide)

/-- C9: decoding a frame whose request code u16 or result code u8 is not
among the enumerated known values never produces a message: `from_u16`,
`from_u8` and hence `from_raw_data_array` end abnormally (the Rust code
panics; the panic is the modelled decode failure) instead of mapping the
input to a default value. -/
theorem decode_unknown_is_error :
    (∀ v : Nat, v ∉ request_known_codes → RequestType.from_u16 v = none) ∧
    (∀ v : Nat, v ∉ result_known_codes → ResultType.from_u8 v = none) ∧
    (∀ d : List Nat,
      (d.getD 0 0 ||| (d.getD 1 0 <<< 8)) ∉ request_known_codes ∨
        d.getD 2 0 ∉ result_known_codes →
      Msg.from_raw_data_array d = none) := by
  refine ⟨request_from_u16_eq_none, result_from_u8_eq_none, ?_⟩
  intro d h
  unfold Msg.from_raw_data_array
  rcases h with h | h
  · rw [request_from_u16_eq_none _ h]
  · rw [result_from_u8_eq_none _ h]
    cases RequestType.from_u16 (d.getD 0 0 ||| (d.getD 1 0 <<< 8)) <;> rfl

/-- C9 witness: the unknown request code 2, the unknown result code 2, and
an 8-byte frame carrying the unknown request code 2 are all rejected. -/
theorem decode_unknown_is_error_witness :
    RequestType.from_u16 2 = none ∧ ResultType.from_u8 2 = none ∧
    Msg.from_raw_data_array [2, 0, 0, 0, 0, 0, 0, 0] = none :=
  ⟨decode_unknown_is_error.1 2 (by decide),
   decode_unknown_is_error.2.1 2 (by decide),
   decode_unknown_is_error.2.2 [2, 0, 0, 0, 0, 0, 0, 0] (Or.inl (by decide))⟩

/-- C8 counterexample: a response with a non-success result code AND a wrong
packet id is classified `ResultError`, although the result code is not the
sole violator (the claim demands `MsgCorruption` whenever the packet id
disagrees). -/
theorem is_response_ok_sole_violator_cex :
    classify_response_check
      ((Msg.new_std_request .Ping).is_response_ok
        ⟨.Ping, .Error, 13, MsgData.new⟩) = .resultError ∧
    (13 : Nat) ≠ (Msg.new_std_request .Ping).packet_id := by
  decide

/-- C8 (amended): `is_response_ok` succeeds iff the response echoes the
request code, carries a success result (None or Ok) and echoes the packet
id; on failure the kind is `ResultError` whenever the result code is
non-success (even if the request code or packet id also disagree), and
`MsgCorruption` otherwise (wrong packet id or wrong request code). -/
theorem is_response_ok_classification (rq rs : Msg) :
    classify_response_check (rq.is_response_ok rs) =
      (if rq.request = rs.request ∧ rs.result.is_ok = true ∧ rq.packet_id = rs.packet_id
       then RespCheckKind.ok
       else if rs.result.is_ok = false then RespCheckKind.resultError
       else RespCheckKind.msgCorruption) := by
  unfold Msg.is_response_ok
  by_cases h1 : rq.request = rs.request <;>
    by_cases h2 : rs.result.is_ok = true <;>
      by_cases h3 : rq.packet_id = rs.packet_id <;>
        simp [h1, h2, h3, classify_response_check]

/-- Helper: the byte vector built by the fold of `_calc_app_crc` is the
concatenation, in list order, of the per-page byte blocks. -/
theorem calc_app_crc_bytes_eq (a : AppFirmware) (l : List Nat) (init : List Nat) :
    l.foldl
      (fun app_flash page_id =>
        match a.get_page page_id with
        | some page => app_flash ++ page.bytes
        | none => app_flash ++ List.replicate a.flash_page_size FLASH_DFT_VALUE)
      init
    = init ++ (l.map
        (fun page_id =>
          match a.get_page page_id with
          | some page => page.bytes
          | none => List.replicate a.flash_page_size FLASH_DFT_VALUE)).flatten := by
  induction l generalizing init with
  | nil => simp
  | cons x xs ih =>
    simp only [List.foldl_cons, List.map_cons, List.flatten_cons]
    cases h : a.get_page x <;> simp [h, ih]

/-- Helper: popping the last four elements equals keeping all but the last
four. -/
theorem dropLast_four_eq_take {α : Type} (l : List α) :
    l.dropLast.dropLast.dropLast.dropLast = l.take (l.length - 4) := by
  simp [List.dropLast_eq_take, List.take_take, List.length_take]
  omega

/-- C4: for every firmware image, the whole-image CRC computed by
`_calc_app_crc` equals the CRC-32 of the concatenation of the pages in
ascending page id over [0, flash_num_pages) — an all-0xFF page of page-size
bytes standing in for every missing id — with the final four bytes (the
stored-CRC slot) removed before hashing. -/
theorem calc_app_crc_eq_spec (a : AppFirmware) : a.calc_app_crc = a.app_crc_spec := by
  unfold AppFirmware.calc_app_crc AppFirmware.app_crc_spec AppFirmware.calc_app_crc_bytes
    AppFirmware.app_image_bytes_spec
  rw [calc_app_crc_bytes_eq]
  simp only [List.nil_append]
  rw [dropLast_four_eq_take]

/-- Helper: an entry execute appends exactly its own command to the trace,
whatever the device answers. -/
theorem exec_entry_snd (o : Oracle) (tr : List Cmd) (rt : RequestType) (arg : Nat) :
    (Entry.exec_entry o tr rt arg).2 = tr ++ [Cmd.exec rt arg] := rfl

/-- Helper: an entry write appends exactly its own command to the trace. -/
theorem write_entry_snd (o : Oracle) (tr : List Cmd) (rt : RequestType) (pid w : Nat) :
    (Entry.write_entry o tr rt pid w).2 = tr ++ [Cmd.write rt pid w] := rfl

/-- Helper: an RO entry read leaves the trace unchanged: no request reaches
the transport, for an empty and for a populated cache alike. -/
theorem read_ro_entry_snd (v : Option MsgData) (tr : List Cmd) :
    (Device.read_ro_entry v tr).2 = tr := by
  cases v <;> rfl

/-- Helper: derivation of `Device.read_ro_entry` from the embedded
`Entry::read_value`: on an RO entry with any name and request code, and for
every transport, `read_value` issues no request and panics unwrapping an
empty cache respectively returns the cached payload unchanged. -/
theorem read_value_ro_entry_general {σ : Type} (I : Iface σ) (s : σ) (nm : String)
    (rt : RequestType) (d : MsgData) :
    Entry.read_value I ⟨.RO, nm, rt, none⟩ s =
      (.unwrapNone, ⟨.RO, nm, rt, none⟩, s, []) ∧
    Entry.read_value I ⟨.RO, nm, rt, some d⟩ s =
      (.ok d, ⟨.RO, nm, rt, some d⟩, s, []) :=
  ⟨rfl, rfl⟩

/-- Helper: splitting a membership in an extended trace whose suffix avoids
`FlashWriteAppCRC`. -/
theorem mem_append_not_appcrc {tr s : List Cmd} {c : Cmd}
    (hc : c ∈ tr ++ s) (hs : ∀ x ∈ s, Cmd.req x ≠ RequestType.FlashWriteAppCRC) :
    c ∈ tr ∨ Cmd.req c ≠ RequestType.FlashWriteAppCRC := by
  rcases List.mem_append.mp hc with h | h
  · exact Or.inl h
  · exact Or.inr (hs c h)

/-- Helper: transitivity of the no-`FlashWriteAppCRC` trace extension. -/
theorem mem_chain_not_appcrc {tr tr2 : List Cmd} {c : Cmd}
    (h : c ∈ tr2 ∨ Cmd.req c ≠ RequestType.FlashWriteAppCRC)
    (h2 : ∀ x ∈ tr2, x ∈ tr ∨ Cmd.req x ≠ RequestType.FlashWriteAppCRC) :
    c ∈ tr ∨ Cmd.req c ≠ RequestType.FlashWriteAppCRC := by
  rcases h with h | h
  · exact h2 c h
  · exact Or.inr h

/-- Helper: the word loop never issues `FlashWriteAppCRC`. -/
theorem mem_write_page_words (o : Oracle) (bytes : List Nat) :
    ∀ (idxs : List Nat) (tr : List Cmd), ∀ c ∈ (Device.write_page_words o bytes idxs tr).2,
      c ∈ tr ∨ Cmd.req c ≠ RequestType.FlashWriteAppCRC := by
  intro idxs
  induction idxs with
  | nil =>
    intro tr c hc
    left
    simpa [Device.write_page_words] using hc
  | cons i rest ih =>
    intro tr c hc
    unfold Device.write_page_words at hc
    split at hc
    next u tr1 heq =>
      have htr : tr1 = tr ++ [Cmd.write .PageBufferWriteWord (i % 256) (page_word bytes i)] := by
        rw [← write_entry_snd o tr .PageBufferWriteWord (i % 256) (page_word bytes i), heq]
      refine mem_chain_not_appcrc (ih _ c hc) ?_
      intro x hx
      rw [htr] at hx
      exact mem_append_not_appcrc hx (by intro x hx; simp at hx; subst hx; simp [Cmd.req])
    next e tr1 heq =>
      have htr : tr1 = tr ++ [Cmd.write .PageBufferWriteWord (i % 256) (page_word bytes i)] := by
        rw [← write_entry_snd o tr .PageBufferWriteWord (i % 256) (page_word bytes i), heq]
      rw [htr] at hc
      exact mem_append_not_appcrc hc (by intro x hx; simp at hx; subst hx; simp [Cmd.req])

/-- Helper: the per-page transfer never issues `FlashWriteAppCRC`, for any
cached `PageBufferCalcCRC` value. -/
theorem mem_flash_one_page (o : Oracle) (ps spid : Nat) (cc : Option MsgData)
    (page : FlashPage) :
    ∀ (tr : List Cmd), ∀ c ∈ (Device.flash_one_page o ps spid cc page tr).2,
      c ∈ tr ∨ Cmd.req c ≠ RequestType.FlashWriteAppCRC := by
  intro tr c hc
  unfold Device.flash_one_page at hc
  split at hc
  next e tr1 heq =>
    have htr : tr1 = tr ++ [Cmd.exec .PageBufferClear 0] := by
      rw [← exec_entry_snd o tr .PageBufferClear 0, heq]
    rw [htr] at hc
    exact mem_append_not_appcrc hc (by intro x hx; simp at hx; subst hx; simp [Cmd.req])
  next u tr1 heq =>
    have htr : tr1 = tr ++ [Cmd.exec .PageBufferClear 0] := by
      rw [← exec_entry_snd o tr .PageBufferClear 0, heq]
    have step1 : ∀ x ∈ tr1, x ∈ tr ∨ Cmd.req x ≠ RequestType.FlashWriteAppCRC := by
      intro x hx
      rw [htr] at hx
      exact mem_append_not_appcrc hx (by intro x hx; simp at hx; subst hx; simp [Cmd.req])
    split at hc
    next e tr2 heq2 =>
      have hm : c ∈ (Device.write_page_words o page.bytes (List.range (ps / 4)) tr1).2 := by
        rw [heq2]; exact hc
      exact mem_chain_not_appcrc (mem_write_page_words o page.bytes _ tr1 c hm) step1
    next u2 tr2 heq2 =>
      have step2 : ∀ x ∈ tr2, x ∈ tr ∨ Cmd.req x ≠ RequestType.FlashWriteAppCRC := by
        intro x hx
        have hm : x ∈ (Device.write_page_words o page.bytes (List.range (ps / 4)) tr1).2 := by
          rw [heq2]; exact hx
        exact mem_chain_not_appcrc (mem_write_page_words o page.bytes _ tr1 x hm) step1
      split at hc
      next e tr3 heq3 =>
        have htr3 : tr3 = tr2 := by rw [← read_ro_entry_snd cc tr2, heq3]
        rw [htr3] at hc
        exact step2 c hc
      next tr3 heq3 =>
        have htr3 : tr3 = tr2 := by rw [← read_ro_entry_snd cc tr2, heq3]
        rw [htr3] at hc
        exact step2 c hc
      next w tr3 heq3 =>
        have htr3 : tr3 = tr2 := by rw [← read_ro_entry_snd cc tr2, heq3]
        have step3 : ∀ x ∈ tr3, x ∈ tr ∨ Cmd.req x ≠ RequestType.FlashWriteAppCRC := by
          intro x hx
          rw [htr3] at hx
          exact step2 x hx
        split at hc
        · exact step3 c hc
        · split at hc
          next e tr4 heq4 =>
            have htr4 : tr4 = tr3 ++ [Cmd.exec .FlashWriteErasePage (page.id + spid)] := by
              rw [← exec_entry_snd o tr3 .FlashWriteErasePage (page.id + spid), heq4]
            rw [htr4] at hc
            exact mem_chain_not_appcrc
              (mem_append_not_appcrc hc (by intro x hx; simp at hx; subst hx; simp [Cmd.req]))
              step3
          next u4 tr4 heq4 =>
            have htr4 : tr4 = tr3 ++ [Cmd.exec .FlashWriteErasePage (page.id + spid)] := by
              rw [← exec_entry_snd o tr3 .FlashWriteErasePage (page.id + spid), heq4]
            have step4 : ∀ x ∈ tr4, x ∈ tr ∨ Cmd.req x ≠ RequestType.FlashWriteAppCRC := by
              intro x hx
              rw [htr4] at hx
              exact mem_chain_not_appcrc
                (mem_append_not_appcrc hx (by intro x hx; simp at hx; subst hx; simp [Cmd.req]))
                step3
            split at hc
            next e tr5 heq5 =>
              have htr5 : tr5 = tr4 ++ [Cmd.exec .PageBufferWriteToFlash (page.id + spid)] := by
                rw [← exec_entry_snd o tr4 .PageBufferWriteToFlash (page.id + spid), heq5]
              rw [htr5] at hc
              exact mem_chain_not_appcrc
                (mem_append_not_appcrc hc
                  (by intro x hx; simp at hx; subst hx; simp [Cmd.req]))
                step4
            next u5 tr5 heq5 =>
              have htr5 : tr5 = tr4 ++ [Cmd.exec .PageBufferWriteToFlash (page.id + spid)] := by
                rw [← exec_entry_snd o tr4 .PageBufferWriteToFlash (page.id + spid), heq5]
              rw [htr5] at hc
              exact mem_chain_not_appcrc
                (mem_append_not_appcrc hc
                  (by intro x hx; simp at hx; subst hx; simp [Cmd.req]))
                step4

/-- Helper: the page loop never issues `FlashWriteAppCRC`. -/
theorem mem_flash_app_pages_go (o : Oracle) (ps spid : Nat) (cc : Option MsgData) :
    ∀ (pages : List FlashPage) (tr : List Cmd),
      ∀ c ∈ (Device.flash_app_pages_go o ps spid cc pages tr).2,
      c ∈ tr ∨ Cmd.req c ≠ RequestType.FlashWriteAppCRC := by
  intro pages
  induction pages with
  | nil =>
    intro tr c hc
    left
    simpa [Device.flash_app_pages_go] using hc
  | cons p rest ih =>
    intro tr c hc
    unfold Device.flash_app_pages_go at hc
    split at hc
    next e tr1 heq =>
      have hm : c ∈ (Device.flash_one_page o ps spid cc p tr).2 := by rw [heq]; exact hc
      exact mem_flash_one_page o ps spid cc p tr c hm
    next tr1 heq =>
      have hm : c ∈ (Device.flash_one_page o ps spid cc p tr).2 := by rw [heq]; exact hc
      exact mem_flash_one_page o ps spid cc p tr c hm
    next u tr1 heq =>
      refine mem_chain_not_appcrc (ih tr1 c hc) ?_
      intro x hx
      have hm : x ∈ (Device.flash_one_page o ps spid cc p tr).2 := by rw [heq]; exact hx
      exact mem_flash_one_page o ps spid cc p tr x hm

/-- Helper: `_flash_app_pages` never issues `FlashWriteAppCRC`. -/
theorem mem_flash_app_pages (o : Oracle) (app : AppFirmware) (spid : Nat)
    (cc : Option MsgData) (tr : List Cmd) :
    ∀ c ∈ (Device.flash_app_pages o app spid cc tr).2,
      c ∈ tr ∨ Cmd.req c ≠ RequestType.FlashWriteAppCRC := by
  intro c hc
  exact mem_flash_app_pages_go o app.flash_page_size spid cc app.page_lst tr c
    (by simpa [Device.flash_app_pages] using hc)

/-- Helper: inside the driver the `AppInfoCRCCalc` cache is empty, so
`_check_app_crc` panics at its first read, issuing no transport traffic. -/
theorem check_app_crc_empty_cache (o : Oracle) (app : AppFirmware) (aIdx : Nat)
    (tr : List Cmd) :
    Device.check_app_crc o app aIdx none tr = (RunResult.panicked, tr) := rfl

/-- C3: evaluated against the real entry reads of entry.rs: `Device::flash`
never sends a `FlashWriteAppCRC` request on any execution path (so the
stored CRC is never updated), and no run of flash ever completes — inside
the driver the RO caches (`PageBufferCalcCRC`, `AppInfoCRCCalc`) are always
empty, so the whole-image verification the claim stages before
`FlashWriteAppCRC` is unreachable: every flash run ends in a transport
error or panics at its first RO entry read.  Concretely, flashing the
one-page fixture against an acknowledging device panics directly after the
page words are streamed, with no erase, commit, verification or CRC-commit
traffic. -/
theorem flash_app_crc_never_issued :
    (∀ (o : Oracle) (app : AppFirmware) (spid aIdx arg : Nat),
       Cmd.exec RequestType.FlashWriteAppCRC arg ∉
         (Device.flash_run o app spid aIdx none none).2) ∧
    (∀ (o : Oracle) (app : AppFirmware) (spid aIdx : Nat),
       (Device.flash_run o app spid aIdx none none).1 ≠ RunResult.ok ()) ∧
    Device.flash_run oracle_ack app_fw0 2 2 none none =
      (RunResult.panicked,
       [Cmd.exec RequestType.PageBufferClear 0,
        Cmd.write RequestType.PageBufferWriteWord 0 0xFFFFFFAA]) := by
  refine ⟨?_, ?_, by decide⟩
  · intro o app spid aIdx arg hmem
    unfold Device.flash_run at hmem
    split at hmem
    next e tr1 heq =>
      have hm : Cmd.exec RequestType.FlashWriteAppCRC arg ∈
          (Device.flash_app_pages o app spid none []).2 := by rw [heq]; exact hmem
      rcases mem_flash_app_pages o app spid none [] _ hm with hin | hneq
      · simp at hin
      · exact absurd rfl hneq
    next tr1 heq =>
      have hm : Cmd.exec RequestType.FlashWriteAppCRC arg ∈
          (Device.flash_app_pages o app spid none []).2 := by rw [heq]; exact hmem
      rcases mem_flash_app_pages o app spid none [] _ hm with hin | hneq
      · simp at hin
      · exact absurd rfl hneq
    next u tr1 heq =>
      rw [check_app_crc_empty_cache o app aIdx tr1] at hmem
      have hm : Cmd.exec RequestType.FlashWriteAppCRC arg ∈
          (Device.flash_app_pages o app spid none []).2 := by rw [heq]; exact hmem
      rcases mem_flash_app_pages o app spid none [] _ hm with hin | hneq
      · simp at hin
      · exact absurd rfl hneq
  · intro o app spid aIdx
    unfold Device.flash_run
    split
    next e tr1 heq => simp
    next tr1 heq => simp
    next u tr1 heq =>
      rw [check_app_crc_empty_cache o app aIdx tr1]
      simp

/-- C5: evaluated against the real entry reads of entry.rs: the recovery
pass of `_check_app_crc` is unreachable — the first whole-image
verification panics at the `AppInfoCRCCalc` read (empty RO cache) before
any mismatch can be observed, with no transport traffic at all; and the
recovery routine `_erase_unused_pages` itself iterates only over
[0, page_lst.len()), so on the sparse fixture (a four-page application
region holding only page 0) it issues NO `FlashWriteErasePage` although
page id 1 lies in [0, flash_num_pages) and is absent from the image. -/
theorem check_app_crc_recovery_unreachable :
    (∀ (o : Oracle) (app : AppFirmware) (aIdx : Nat) (tr : List Cmd),
       Device.check_app_crc o app aIdx none tr = (RunResult.panicked, tr)) ∧
    (Device.erase_unused_pages oracle_ack app_fw_sparse 2 []).2 = [] ∧
    app_fw_sparse.get_page 1 = none ∧
    1 < app_fw_sparse.flash_num_pages ∧
    app_fw_sparse.page_lst.length = 1 := by
  refine ⟨fun o app aIdx tr => rfl, by decide, by decide, by decide, by decide⟩

end FranklyBoot
